import Mathlib

/-!
Shallow embedding of the PM2.5 measurement tool (src/main.py) and proofs
about its station discovery, rate guard and sampling loop.

Python floats are modelled as exact rationals.  Python runtime failures
(ZeroDivisionError, TypeError, KeyError, raised exceptions, sys.exit on
cadence overrun) are modelled by the error side of an Except.  The HTTP
transport is abstracted as a function from URLs to decoded payloads, as the
code only observes decoded JSON payloads.
-/

/-- Every way the modelled fragment of the program can terminate abnormally:
Python ZeroDivisionError, TypeError (indexing a string / unpacking a float),
KeyError (missing dict key), the exceptions raised by the code itself, the
exit on a cadence overrun, and a transport-level failure of a single fetch. -/
inductive Err : Type
  | zeroDivision
  | typeError
  | keyError
  | apiError (msg : String)
  | remoteError (msg : String)
  | cadenceOverrun
  | transport (msg : String)
deriving DecidableEq

/-- Decoded JSON payload of a per-station feed request.  A payload with
status ok carries the data.iaqi mapping (pollutant name to its v value);
an error payload carries the message string in its data field. -/
inductive FeedResp : Type
  | ok (iaqi : List (String × ℚ))
  | err (msg : String)
deriving DecidableEq

/-- Python division: raises ZeroDivisionError on a zero denominator. -/
def pydiv (a b : ℚ) : Except Err ℚ :=
  if b = 0 then .error .zeroDivision else .ok (a / b)

/-- main.py get_responses_batch, lines 19-22: map the fetch over the URL
list, preserving order; the first exception encountered while collecting
the results propagates and no result list is produced. -/
def get_responses_batch {α : Type} (request_url : String → Except Err α) :
    List String → Except Err (List α)
  | [] => .ok []
  | u :: rest =>
    match request_url u with
    | .error e => .error e
    | .ok r =>
      match get_responses_batch request_url rest with
      | .error e => .error e
      | .ok rs => .ok (r :: rs)

/-- main.py get_samples, lines 57-68: for each response, an error status
raises the remote message; otherwise data.iaqi[iaqi][v] is extracted, a
missing pollutant key being a Python KeyError. -/
def get_samples (iaqi : String) : List FeedResp → Except Err (List ℚ)
  | [] => .ok []
  | .err m :: _ => .error (.remoteError m)
  | .ok mp :: rest =>
    match mp.lookup iaqi with
    | none => .error .keyError
    | some v =>
      match get_samples iaqi rest with
      | .error e => .error e
      | .ok vs => .ok (v :: vs)

/-- The mutable loop accumulator of main.py lines 143-145. -/
structure Session : Type where
  sample_total : ℚ
  num_samples : ℕ
  time_elapsed : ℚ
deriving DecidableEq

/-- Initial accumulator: sample_total = 0.0, num_samples = 0,
time_elapsed = 0.0 (main.py lines 143-145). -/
def initSession : Session := ⟨0, 0, 0⟩

/-- One iteration of the sampling loop body, main.py lines 148-166, given
the decoded feed payloads of this tick and the measured request latency:
extract the samples, add this tick's mean of them to sample_total, bump
num_samples, compute sleep_time = 60/sampling_rate - latency, exit on
sleep_time < 0, and advance time_elapsed by 60/sampling_rate. -/
def tick (iaqi : String) (sampling_rate : ℚ) (resps : List FeedResp)
    (latency : ℚ) (s : Session) : Except Err Session :=
  match get_samples iaqi resps with
  | .error e => .error e
  | .ok sample_list =>
    match pydiv sample_list.sum (sample_list.length : ℚ) with
    | .error e => .error e
    | .ok m =>
      match pydiv 60 sampling_rate with
      | .error e => .error e
      | .ok interval =>
        if interval - latency < 0 then .error .cadenceOverrun
        else .ok ⟨s.sample_total + m, s.num_samples + 1, s.time_elapsed + interval⟩

/-- Outcome of running the while loop: normal exit, a fatal error, or fuel
exhaustion (the concrete program may loop forever, e.g. sampling_rate < 0
never advances time_elapsed past a positive bound). -/
inductive LoopResult : Type
  | done (s : Session)
  | failed (e : Err)
  | outOfFuel (s : Session)
deriving DecidableEq

/-- The while loop of main.py lines 147-166: while
time_elapsed < sampling_period * 60, run one tick.  The environment env
supplies, per tick index, the decoded feed payloads and the measured
latency of that tick. -/
def runLoop (iaqi : String) (sampling_rate sampling_period : ℚ)
    (env : ℕ → List FeedResp × ℚ) : ℕ → Session → LoopResult
  | 0, s =>
    if s.time_elapsed < sampling_period * 60 then .outOfFuel s else .done s
  | fuel + 1, s =>
    if s.time_elapsed < sampling_period * 60 then
      match tick iaqi sampling_rate (env s.num_samples).1 (env s.num_samples).2 s with
      | .error e => .failed e
      | .ok s' => runLoop iaqi sampling_rate sampling_period env fuel s'
    else .done s

/-- The state of the accumulator after k executed loop bodies, starting
from the initial state (ignoring the while guard, which does not change
the state). -/
def loopSteps (iaqi : String) (sampling_rate : ℚ)
    (env : ℕ → List FeedResp × ℚ) : ℕ → Except Err Session
  | 0 => .ok initSession
  | k + 1 =>
    match loopSteps iaqi sampling_rate env k with
    | .error e => .error e
    | .ok s => tick iaqi sampling_rate (env s.num_samples).1 (env s.num_samples).2 s

/-- Final average, main.py line 168: sample_total / num_samples, a Python
ZeroDivisionError when no tick ran. -/
def finalAverage (s : Session) : Except Err ℚ :=
  pydiv s.sample_total (s.num_samples : ℚ)

/-- The per-tick mean as the code computes it: sum of the extracted station
values of this tick divided by how many there are. -/
def tickMean (iaqi : String) (resps : List FeedResp) : Except Err ℚ :=
  match get_samples iaqi resps with
  | .error e => .error e
  | .ok vs => pydiv vs.sum (vs.length : ℚ)

/-- Total version of tickMean for stating sums; on any run that actually
succeeded every used tick's mean is on the ok side, so the default is
never read there. -/
def tickMeanQ (iaqi : String) (resps : List FeedResp) : ℚ :=
  match tickMean iaqi resps with
  | .ok v => v
  | .error _ => 0

/-- main.py line 6. -/
def root_ip : String := "https://api.waqi.info"

/-- Feed request URL built in main.py line 40. -/
def feedUrl (api_token : String) (uid : ℕ) : String :=
  root_ip ++ "/feed/@" ++ toString uid ++ "/?token=" ++ api_token

/-- Decoded payload of the bounding-box query (main.py line 31): status ok
with the list of returned station uids, or status error with a message. -/
inductive BboxResp : Type
  | ok (uids : List ℕ)
  | err (msg : String)
deriving DecidableEq

/-- A Python value returned by get_station_requests: either the 2-tuple of
filtered url and uid lists, or the bare float 0.0 of main.py line 37. -/
inductive PyValue : Type
  | pair (urls : List String) (uids : List ℕ)
  | floatVal (q : ℚ)
deriving DecidableEq

/-- The filtering loop of main.py lines 45-53 over the zipped
(response, url, uid) triples: a station whose probe payload's data.iaqi
map contains the pollutant key is kept; one whose probe payload has status
ok but no such key is dropped, its uid appended to the printed ignore
notices; a probe payload with status error makes data a string, so
indexing it with iaqi raises a Python TypeError. -/
def filterStations (iaqi : String) :
    List (FeedResp × String × ℕ) → Except Err (List String × List ℕ × List ℕ)
  | [] => .ok ([], [], [])
  | (FeedResp.err _, _, _) :: _ => .error .typeError
  | (FeedResp.ok mp, url, uid) :: rest =>
    match filterStations iaqi rest with
    | .error e => .error e
    | .ok (us, ids, ign) =>
      if (mp.lookup iaqi).isSome then .ok (url :: us, uid :: ids, ign)
      else .ok (us, ids, uid :: ign)

/-- main.py get_station_requests, lines 27-55: query the bounding box, raise
on an error status, return the float 0.0 on an empty station list, else
probe every station once through the batch fetcher and filter on the
pollutant key. -/
def get_station_requests (fetch : String → Except Err FeedResp)
    (bbox : BboxResp) (api_token : String) (iaqi : String) :
    Except Err PyValue :=
  match bbox with
  | .err msg => .error (.apiError msg)
  | .ok data =>
    if data.length = 0 then .ok (.floatVal 0)
    else
      let station_urls := data.map (feedUrl api_token)
      match get_responses_batch fetch station_urls with
      | .error e => .error e
      | .ok response_list =>
        match filterStations iaqi (response_list.zip (station_urls.zip data)) with
        | .error e => .error e
        | .ok (fu, fi, _) => .ok (.pair fu fi)

/-- The tuple unpacking at main.py line 130: unpacking the 2-tuple
succeeds; unpacking the float 0.0 raises a Python TypeError. -/
def unpack2 : PyValue → Except Err (List String × List ℕ)
  | .pair a b => .ok (a, b)
  | .floatVal _ => .error .typeError

/-- Line 130 of the session body: call get_station_requests and unpack the
result into station_urls, station_uids. -/
def discoverStations (fetch : String → Except Err FeedResp)
    (bbox : BboxResp) (api_token : String) :
    Except Err (List String × List ℕ) :=
  match get_station_requests fetch bbox api_token "pm25" with
  | .error e => .error e
  | .ok v => unpack2 v

/-- main.py line 134. -/
def estimate_requests_per_sec (sampling_rate : ℚ) (stationCount : ℕ) : ℚ :=
  sampling_rate / 60 * stationCount

/-- Outcome of the rate guard of main.py lines 134-141. -/
inductive RateClass : Type
  | reject
  | warn
  | proceed
deriving DecidableEq

/-- main.py lines 135-141: strictly above 1000 requests per second exits,
strictly above 500 warns, anything else proceeds silently. -/
def rate_guard (sampling_rate : ℚ) (stationCount : ℕ) : RateClass :=
  if estimate_requests_per_sec sampling_rate stationCount > 1000 then .reject
  else if estimate_requests_per_sec sampling_rate stationCount > 500 then .warn
  else .proceed

/-- Severity order of the three tiers, for stating monotonicity. -/
def classLevel : RateClass → ℕ
  | .proceed => 0
  | .warn => 1
  | .reject => 2

/-- The sampling_rate check of validate_input, main.py lines 115-118: the
parsed rate is rejected exactly when rate / 60 exceeds 1000. -/
def sampling_rate_rejected (sampling_rate : ℚ) : Bool :=
  sampling_rate / 60 > 1000

deriving instance DecidableEq for Except

/-- A successful Python division means the denominator was nonzero and the
result is the exact quotient. -/
theorem pydiv_ok {a b q : ℚ} (h : pydiv a b = .ok q) : b ≠ 0 ∧ q = a / b := by
  unfold pydiv at h
  split at h
  · cases h
  next hb =>
    injection h with h2
    exact ⟨hb, h2.symm⟩

/-- What one successful loop body does to the accumulator: num_samples is
bumped by one, sample_total grows by this tick's mean, the sampling rate
was nonzero (otherwise line 159 raises), and time_elapsed advances by the
target interval 60 / sampling_rate, never by the measured latency. -/
theorem tick_ok {iaqi : String} {rate : ℚ} {resps : List FeedResp} {latency : ℚ}
    {s s' : Session} (h : tick iaqi rate resps latency s = .ok s') :
    s'.num_samples = s.num_samples + 1 ∧
    s'.sample_total = s.sample_total + tickMeanQ iaqi resps ∧
    (∃ v, tickMean iaqi resps = .ok v) ∧
    rate ≠ 0 ∧
    s'.time_elapsed = s.time_elapsed + 60 / rate := by
  unfold tick at h
  split at h
  · cases h
  next sample_list hg =>
    split at h
    · cases h
    next m hm =>
      split at h
      · cases h
      next interval hi =>
        split at h
        · cases h
        next hlt =>
          injection h with h2
          subst h2
          obtain ⟨hrate, hintv⟩ := pydiv_ok hi
          have htm : tickMean iaqi resps = .ok m := by
            unfold tickMean; rw [hg]; exact hm
          have htmq : tickMeanQ iaqi resps = m := by
            unfold tickMeanQ; rw [htm]
          subst hintv
          exact ⟨rfl, by rw [htmq], ⟨m, htm⟩, hrate, rfl⟩

/-- A successful per-tick mean comes from a nonempty extracted sample list
and equals its sum divided by its length. -/
theorem tickMean_ok {iaqi : String} {resps : List FeedResp} {v : ℚ}
    (h : tickMean iaqi resps = .ok v) :
    ∃ vs, get_samples iaqi resps = .ok vs ∧ vs ≠ [] ∧
      v = vs.sum / (vs.length : ℚ) ∧ tickMeanQ iaqi resps = v := by
  unfold tickMean at h
  split at h
  · cases h
  next vs hg =>
    obtain ⟨hlen, hv⟩ := pydiv_ok h
    refine ⟨vs, hg, ?_, hv, ?_⟩
    · intro hnil
      exact hlen (by rw [hnil]; norm_num)
    · unfold tickMeanQ tickMean
      simp only [hg, h]

/-- Everything the while loop guarantees about a normal exit, relative to
the entry state: num_samples only grows, sample_total grows by exactly the
per-tick means of the executed ticks, time_elapsed grows by exactly the
number of executed ticks times the target interval, every executed tick
had a well-defined mean, and the guard time_elapsed >= period * 60 holds
at exit. -/
theorem runLoop_done_spec {iaqi : String} {rate period : ℚ}
    {env : ℕ → List FeedResp × ℚ} :
    ∀ (fuel : ℕ) (s s' : Session),
      runLoop iaqi rate period env fuel s = .done s' →
      s.num_samples ≤ s'.num_samples ∧
      s'.sample_total = s.sample_total +
        ∑ i ∈ Finset.Ico s.num_samples s'.num_samples, tickMeanQ iaqi (env i).1 ∧
      s'.time_elapsed = s.time_elapsed +
        ((s'.num_samples : ℚ) - (s.num_samples : ℚ)) * (60 / rate) ∧
      (∀ i, s.num_samples ≤ i → i < s'.num_samples →
        ∃ v, tickMean iaqi (env i).1 = .ok v) ∧
      period * 60 ≤ s'.time_elapsed := by
  intro fuel
  induction fuel with
  | zero =>
    intro s s' h
    unfold runLoop at h
    split at h
    · cases h
    next hge =>
      injection h with h2
      subst h2
      refine ⟨le_refl _, by simp, by ring, ?_, not_lt.mp hge⟩
      intro i h1 h2
      omega
  | succ fuel ih =>
    intro s s' h
    unfold runLoop at h
    split at h
    next hlt =>
      cases ht : tick iaqi rate (env s.num_samples).1 (env s.num_samples).2 s with
      | error e => rw [ht] at h; cases h
      | ok s1 =>
        rw [ht] at h
        obtain ⟨hn1, hst1, ⟨v, hv⟩, hrate, hel1⟩ := tick_ok ht
        obtain ⟨hle, hsum, hel, hok, hper⟩ := ih s1 s' h
        have hlt1 : s.num_samples < s'.num_samples := by omega
        refine ⟨by omega, ?_, ?_, ?_, hper⟩
        · rw [hsum, hst1, hn1, Finset.sum_eq_sum_Ico_succ_bot hlt1]
          ring
        · rw [hel, hel1, hn1]
          push_cast
          ring
        · intro i hi1 hi2
          rcases eq_or_lt_of_le hi1 with rfl | hgt
          · exact ⟨v, hv⟩
          · exact hok i (by omega) hi2
    next hge =>
      injection h with h2
      subst h2
      refine ⟨le_refl _, by simp, by ring, ?_, not_lt.mp hge⟩
      intro i h1 h2
      omega

/-- State after k executed loop bodies: num_samples counts the bodies and
time_elapsed is exactly k target intervals, whatever the latencies were. -/
theorem loopSteps_spec {iaqi : String} {rate : ℚ} {env : ℕ → List FeedResp × ℚ} :
    ∀ (k : ℕ) (s : Session), loopSteps iaqi rate env k = .ok s →
      s.num_samples = k ∧ s.time_elapsed = (k : ℚ) * (60 / rate) := by
  intro k
  induction k with
  | zero =>
    intro s h
    unfold loopSteps at h
    injection h with h2
    subst h2
    exact ⟨rfl, by norm_num [initSession]⟩
  | succ k ih =>
    intro s h
    unfold loopSteps at h
    cases hk : loopSteps iaqi rate env k with
    | error e => rw [hk] at h; cases h
    | ok sk =>
      rw [hk] at h
      obtain ⟨hn, hel⟩ := ih sk hk
      obtain ⟨hn1, _, _, hrate, hel1⟩ := tick_ok h
      constructor
      · omega
      · rw [hel1, hel]
        push_cast
        ring

/-- Claim C1: on a normal exit of the sampling loop the reported final
average is sample_total / num_samples where sample_total is exactly the
sum of the per-tick means, each tick's mean being the sum of that tick's
extracted station values divided by how many there were in that tick (a
mean of per-tick means, not a global mean over all samples). -/
theorem c1_final_average_is_mean_of_tick_means
    (iaqi : String) (rate period : ℚ) (env : ℕ → List FeedResp × ℚ)
    (fuel : ℕ) (s : Session)
    (h : runLoop iaqi rate period env fuel initSession = .done s)
    (hn : s.num_samples ≠ 0) :
    s.sample_total = ∑ i ∈ Finset.range s.num_samples, tickMeanQ iaqi (env i).1 ∧
    (∀ i < s.num_samples, ∃ vs, get_samples iaqi (env i).1 = .ok vs ∧ vs ≠ [] ∧
      tickMeanQ iaqi (env i).1 = vs.sum / (vs.length : ℚ)) ∧
    finalAverage s = .ok (s.sample_total / (s.num_samples : ℚ)) := by
  obtain ⟨_, hsum, _, hok, _⟩ := runLoop_done_spec fuel initSession s h
  refine ⟨?_, ?_, ?_⟩
  · rw [Finset.range_eq_Ico]
    simpa [initSession] using hsum
  · intro i hi
    obtain ⟨v, hv⟩ := hok i (Nat.zero_le i) hi
    obtain ⟨vs, hgs, hne, hveq, htmq⟩ := tickMean_ok hv
    exact ⟨vs, hgs, hne, by rw [htmq, hveq]⟩
  · unfold finalAverage pydiv
    rw [if_neg (Nat.cast_ne_zero.mpr hn)]

/-- Witness for C1 at a concrete one-tick run with three stations reading
10, 20 and 30: the final average is the tick mean 20. -/
theorem c1_witness : finalAverage ⟨20, 1, 1⟩ = .ok 20 := by
  have h := (c1_final_average_is_mean_of_tick_means "pm25" 60 (1/60)
    (fun _ => ([FeedResp.ok [("pm25", 10)], FeedResp.ok [("pm25", 20)],
      FeedResp.ok [("pm25", 30)]], 0))
    2 ⟨20, 1, 1⟩
    (by norm_num [runLoop, tick, get_samples, pydiv, initSession, List.lookup])
    (by norm_num)).2.2
  simpa using h

/-- Claim C2: after k executed loop bodies num_samples is k and
time_elapsed is exactly k times the target interval 60 / sampling_rate
(the latencies the environment reports never enter it), and the loop
takes the DONE exit at a state exactly when time_elapsed has reached
sampling_period * 60. -/
theorem c2_tick_count_elapsed_invariant_and_done
    (iaqi : String) (rate period : ℚ) (env : ℕ → List FeedResp × ℚ) :
    (∀ (k : ℕ) (s : Session), loopSteps iaqi rate env k = .ok s →
      s.num_samples = k ∧ s.time_elapsed = (k : ℚ) * (60 / rate)) ∧
    (∀ (fuel : ℕ) (s : Session),
      runLoop iaqi rate period env fuel s = .done s ↔
        period * 60 ≤ s.time_elapsed) := by
  refine ⟨loopSteps_spec, ?_⟩
  intro fuel s
  constructor
  · intro h
    exact (runLoop_done_spec fuel s s h).2.2.2.2
  · intro h
    cases fuel with
    | zero => unfold runLoop; rw [if_neg (not_lt.mpr h)]
    | succ fuel => unfold runLoop; rw [if_neg (not_lt.mpr h)]

/-- Witness for C2: two executed ticks at sampling rate 60 per minute give
num_samples 2 and time_elapsed 2 target intervals. -/
theorem c2_witness :
    (⟨20, 2, 2⟩ : Session).num_samples = 2 ∧
    (⟨20, 2, 2⟩ : Session).time_elapsed = ((2 : ℕ) : ℚ) * (60 / 60) :=
  (c2_tick_count_elapsed_invariant_and_done "pm25" 60 5
      (fun _ => ([FeedResp.ok [("pm25", 10)]], 0))).1 2 ⟨20, 2, 2⟩
    (by norm_num [loopSteps, tick, get_samples, pydiv, initSession, List.lookup])

/-- Claim C3, evaluation at the failing input: with the eligible station
list empty (every bounding-box station was filtered out) and the default
parameters sampling_period 5, sampling_rate 1, the session does not fail
before the loop: the loop runs its first tick, which reaches
sum(sample_list) / len(sample_list) with len 0 and dies with a Python
ZeroDivisionError. -/
theorem c3_empty_eligible_reaches_mean_division :
    runLoop "pm25" 1 5 (fun _ => ([], 0)) 1 initSession =
      .failed .zeroDivision := by
  norm_num [runLoop, tick, get_samples, pydiv, initSession]

/-- Claim C4, evaluation at the failing input: a bounding-box response
with status ok and zero stations makes get_station_requests return the
float 0.0 rather than an eligible-station result, and the caller's tuple
unpacking of that float at line 130 raises a Python TypeError, so the
session fails instead of reporting zero eligible stations non-fatally. -/
theorem c4_zero_station_result_is_float_and_unpack_raises :
    get_station_requests (fun _ => .ok (FeedResp.ok [])) (BboxResp.ok [])
      "token" "pm25" = .ok (PyValue.floatVal 0) ∧
    discoverStations (fun _ => .ok (FeedResp.ok [])) (BboxResp.ok [])
      "token" = .error .typeError := by
  constructor <;> decide

/-- Claim C9: when sampling_period is positive, a normal exit of the loop
from the initial state has executed at least one tick, so num_samples is
at least 1 and the final division sample_total / num_samples succeeds. -/
theorem c9_normal_exit_has_at_least_one_tick
    (iaqi : String) (rate period : ℚ) (env : ℕ → List FeedResp × ℚ)
    (fuel : ℕ) (s : Session) (hp : 0 < period)
    (h : runLoop iaqi rate period env fuel initSession = .done s) :
    1 ≤ s.num_samples ∧ ∃ a, finalAverage s = .ok a := by
  have hguard : initSession.time_elapsed < period * 60 := by
    show (0 : ℚ) < period * 60
    exact mul_pos hp (by norm_num)
  have hn : 1 ≤ s.num_samples := by
    cases fuel with
    | zero =>
      unfold runLoop at h
      split at h
      · cases h
      next hge => exact absurd hguard hge
    | succ fuel =>
      unfold runLoop at h
      split at h
      next hlt =>
        cases ht : tick iaqi rate (env initSession.num_samples).1
            (env initSession.num_samples).2 initSession with
        | error e => rw [ht] at h; cases h
        | ok s1 =>
          rw [ht] at h
          have h1 := (tick_ok ht).1
          have h2 := (runLoop_done_spec fuel s1 s h).1
          have h0 : initSession.num_samples = 0 := rfl
          omega
      next hge => exact absurd hguard hge
  refine ⟨hn, s.sample_total / (s.num_samples : ℚ), ?_⟩
  unfold finalAverage pydiv
  rw [if_neg (Nat.cast_ne_zero.mpr (by omega))]

/-- Witness for C9 at the concrete one-tick run of the C1 witness. -/
theorem c9_witness :
    1 ≤ (⟨20, 1, 1⟩ : Session).num_samples ∧
    ∃ a, finalAverage ⟨20, 1, 1⟩ = .ok a :=
  c9_normal_exit_has_at_least_one_tick "pm25" 60 (1/60)
    (fun _ => ([FeedResp.ok [("pm25", 10)], FeedResp.ok [("pm25", 20)],
      FeedResp.ok [("pm25", 30)]], 0))
    2 ⟨20, 1, 1⟩ (by norm_num)
    (by norm_num [runLoop, tick, get_samples, pydiv, initSession, List.lookup])

/-- Claim C5, counterexample to the stated boundary: at sampling rate 60
per minute the target interval is 60/60 = 1 second; a tick whose measured
latency is exactly 1 second does NOT trigger the cadence overrun exit, the
loop sleeps 0 seconds and continues, while the claim requires a fatal
CadenceOverrun at latency greater than or equal to the interval. -/
theorem c5_counterexample :
    (60 : ℚ) / 60 ≤ 1 ∧
    tick "pm25" 60 [FeedResp.ok [("pm25", 5)]] 1 initSession =
      .ok ⟨5, 1, 1⟩ := by
  constructor
  · norm_num
  · norm_num [tick, get_samples, pydiv, initSession, List.lookup]

/-- Claim C5 as amended: a tick whose samples extract successfully and
nonempty, at a nonzero sampling rate, exits fatally with a cadence overrun
exactly when the measured latency is STRICTLY greater than the target
interval 60 / sampling_rate; at latency less than or equal to the
interval the tick succeeds (sleeping the nonnegative difference). -/
theorem c5_cadence_overrun_iff_strictly_late
    (iaqi : String) (rate latency : ℚ) (resps : List FeedResp) (s : Session)
    (hrate : rate ≠ 0)
    (hvs : ∃ vs, get_samples iaqi resps = .ok vs ∧ vs ≠ []) :
    (tick iaqi rate resps latency s = .error .cadenceOverrun ↔
      60 / rate < latency) ∧
    (latency ≤ 60 / rate → ∃ s', tick iaqi rate resps latency s = .ok s') := by
  obtain ⟨vs, hg, hne⟩ := hvs
  have hlen : (vs.length : ℚ) ≠ 0 :=
    Nat.cast_ne_zero.mpr (fun h0 => hne (List.length_eq_zero.mp h0))
  simp only [tick, hg, pydiv, if_neg hlen, if_neg hrate]
  constructor
  · constructor
    · intro h
      by_cases hc : 60 / rate - latency < 0
      · linarith
      · rw [if_neg hc] at h
        cases h
    · intro h
      rw [if_pos (by linarith)]
  · intro hle
    exact ⟨_, by rw [if_neg (by linarith : ¬ 60 / rate - latency < 0)]⟩

/-- Witness for C5 amended: latency 2 at interval 1 second is a cadence
overrun. -/
theorem c5_witness :
    tick "pm25" 60 [FeedResp.ok [("pm25", 5)]] 2 initSession =
      .error .cadenceOverrun :=
  ((c5_cadence_overrun_iff_strictly_late "pm25" 60 2
      [FeedResp.ok [("pm25", 5)]] initSession (by norm_num)
      ⟨[5], by norm_num [get_samples, List.lookup], by simp⟩).1).mpr
    (by norm_num)

/-- An estimated request rate of at most 500 proceeds silently through the
guard of main.py lines 134-141. -/
theorem rate_guard_proceed_of_le {r : ℚ} {c : ℕ}
    (h : estimate_requests_per_sec r c ≤ 500) :
    rate_guard r c = .proceed := by
  unfold rate_guard
  rw [if_neg (not_lt.mpr (by linarith)), if_neg (not_lt.mpr h)]

/-- The three-tier classification is monotone along the estimated request
rate. -/
theorem classLevel_mono_est {r1 r2 : ℚ} {c1 c2 : ℕ}
    (h : estimate_requests_per_sec r1 c1 ≤ estimate_requests_per_sec r2 c2) :
    classLevel (rate_guard r1 c1) ≤ classLevel (rate_guard r2 c2) := by
  unfold rate_guard
  split_ifs <;> simp [classLevel] <;> linarith

/-- Claim C6, counterexample to the stated 500 boundary: 500 stations at
sampling rate 60 per minute give an estimated request rate of exactly
500.0, and the guard proceeds silently, while the claim requires a warning
at exactly 500.0. -/
theorem c6_counterexample :
    estimate_requests_per_sec 60 500 = 500 ∧
    rate_guard 60 500 = RateClass.proceed := by
  constructor
  · norm_num [estimate_requests_per_sec]
  · norm_num [rate_guard, estimate_requests_per_sec]

/-- Claim C6 as amended: an estimated request rate of at most 500
(including exactly 500.0) proceeds silently, strictly above 500 and at
most 1000 warns, strictly above 1000 rejects, and the classification is
monotone both in the sampling rate and in the station count. -/
theorem c6_rate_guard_boundaries_and_monotone :
    (∀ (r : ℚ) (c : ℕ), estimate_requests_per_sec r c ≤ 500 →
      rate_guard r c = .proceed) ∧
    (∀ (r : ℚ) (c : ℕ), 500 < estimate_requests_per_sec r c →
      estimate_requests_per_sec r c ≤ 1000 → rate_guard r c = .warn) ∧
    (∀ (r : ℚ) (c : ℕ), 1000 < estimate_requests_per_sec r c →
      rate_guard r c = .reject) ∧
    (∀ (r1 r2 : ℚ) (c : ℕ), r1 ≤ r2 →
      classLevel (rate_guard r1 c) ≤ classLevel (rate_guard r2 c)) ∧
    (∀ (r : ℚ) (c1 c2 : ℕ), c1 ≤ c2 →
      classLevel (rate_guard r c1) ≤ classLevel (rate_guard r c2)) := by
  refine ⟨fun r c h => rate_guard_proceed_of_le h, ?_, ?_, ?_, ?_⟩
  · intro r c h1 h2
    unfold rate_guard
    rw [if_neg (not_lt.mpr h2), if_pos h1]
  · intro r c h
    unfold rate_guard
    rw [if_pos h]
  · intro r1 r2 c h
    refine classLevel_mono_est ?_
    unfold estimate_requests_per_sec
    exact mul_le_mul_of_nonneg_right (by linarith) (Nat.cast_nonneg c)
  · intro r c1 c2 h
    rcases le_or_lt r 0 with hr | hr
    · have est_np : ∀ c : ℕ, estimate_requests_per_sec r c ≤ 500 := by
        intro c
        unfold estimate_requests_per_sec
        have hc : (0 : ℚ) ≤ (c : ℚ) := Nat.cast_nonneg c
        have h1 : r / 60 ≤ 0 := by linarith
        have h2 := mul_le_mul_of_nonneg_right h1 hc
        rw [zero_mul] at h2
        linarith
      rw [rate_guard_proceed_of_le (est_np c1),
        rate_guard_proceed_of_le (est_np c2)]
    · refine classLevel_mono_est ?_
      unfold estimate_requests_per_sec
      have hcast : (c1 : ℚ) ≤ (c2 : ℚ) := by exact_mod_cast h
      exact mul_le_mul_of_nonneg_left hcast (div_nonneg hr.le (by norm_num))

/-- Witness for C6 amended: 501 stations at rate 60 per minute estimate
501 requests per second and draw the warning tier. -/
theorem c6_witness : rate_guard 60 501 = RateClass.warn :=
  c6_rate_guard_boundaries_and_monotone.2.1 60 501
    (by norm_num [estimate_requests_per_sec])
    (by norm_num [estimate_requests_per_sec])

/-- Claim C10: the sampling_rate validation accepts 0 and negative parsed
rates, its only rejection condition is rate / 60 exceeding 1000, and at
sampling_rate 0 the loop body's 60 / sampling_rate raises a Python
ZeroDivisionError on its first tick. -/
theorem c10_validation_accepts_any_float_rate :
    sampling_rate_rejected 0 = false ∧
    sampling_rate_rejected (-5) = false ∧
    (∀ r : ℚ, sampling_rate_rejected r = true ↔ 1000 < r / 60) ∧
    tick "pm25" 0 [FeedResp.ok [("pm25", 1)]] 0 initSession =
      .error .zeroDivision := by
  refine ⟨?_, ?_, ?_, ?_⟩
  · norm_num [sampling_rate_rejected]
  · norm_num [sampling_rate_rejected]
  · intro r
    simp [sampling_rate_rejected]
  · norm_num [tick, get_samples, pydiv, initSession, List.lookup]

/-- Witness for C10: the rate 0 is accepted by validation. -/
theorem c10_witness : sampling_rate_rejected 0 = false :=
  c10_validation_accepts_any_float_rate.1

/-- Eligibility predicate of the discovery filter: the probe payload has
status ok and its data.iaqi map contains the requested pollutant key. -/
def keepStation (iaqi : String) (x : FeedResp × String × ℕ) : Bool :=
  match x.1 with
  | .ok mp => (mp.lookup iaqi).isSome
  | .err _ => false

/-- When every probe payload has status ok, the discovery filter succeeds
and keeps exactly the stations whose payloads contain the pollutant key,
in order, and the printed ignore notices name exactly the uids of the
dropped stations. -/
theorem filterStations_all_ok (iaqi : String) :
    ∀ (entries : List (FeedResp × String × ℕ)),
      (∀ x ∈ entries, ∃ mp, x.1 = FeedResp.ok mp) →
      filterStations iaqi entries =
        .ok ((entries.filter (keepStation iaqi)).map (fun x => x.2.1),
          (entries.filter (keepStation iaqi)).map (fun x => x.2.2),
          (entries.filter (fun x => ! keepStation iaqi x)).map (fun x => x.2.2)) := by
  intro entries
  induction entries with
  | nil => intro _; rfl
  | cons x rest ih =>
    intro hok
    obtain ⟨f, url, uid⟩ := x
    cases f with
    | err m =>
      obtain ⟨mp, hmp⟩ := hok _ (List.mem_cons_self _ _)
      cases hmp
    | ok mp =>
      have ihr := ih (fun y hy => hok y (List.mem_cons_of_mem _ hy))
      cases hkeep : (mp.lookup iaqi).isSome with
      | true =>
        simp only [filterStations, ihr, hkeep, if_pos]
        simp [keepStation, List.filter_cons, hkeep]
      | false =>
        simp only [filterStations, ihr, hkeep]
        simp [keepStation, List.filter_cons, hkeep]

/-- Claim C7, counterexample: a single returned station whose probe
payload has status error is not dropped with a non-fatal notice; the
filter indexes the payload's string data and the whole discovery dies
with a Python TypeError. -/
theorem c7_counterexample :
    filterStations "pm25" [(FeedResp.err "no data", feedUrl "token" 7, 7)] =
      .error .typeError := by
  decide

/-- Claim C7 as amended: provided every probe payload has status ok, a
returned station is kept as eligible exactly when its payload's iaqi map
contains the requested pollutant key, the dropped stations' uids are the
notice list, and the eligible list is never longer than the returned
list; a probe payload with error status instead aborts discovery with a
TypeError. -/
theorem c7_eligible_iff_has_key_when_probes_ok
    (iaqi : String) (entries : List (FeedResp × String × ℕ))
    (hok : ∀ x ∈ entries, ∃ mp, x.1 = FeedResp.ok mp) :
    filterStations iaqi entries =
      .ok ((entries.filter (keepStation iaqi)).map (fun x => x.2.1),
        (entries.filter (keepStation iaqi)).map (fun x => x.2.2),
        (entries.filter (fun x => ! keepStation iaqi x)).map (fun x => x.2.2)) ∧
    ((entries.filter (keepStation iaqi)).map (fun x => x.2.1)).length ≤
      entries.length := by
  refine ⟨filterStations_all_ok iaqi entries hok, ?_⟩
  rw [List.length_map]
  exact List.length_filter_le _ _

/-- Witness for C7 amended: of two ok probes, only the station reporting
pm25 is kept; the other's uid 102 is noticed and dropped. -/
theorem c7_witness :
    filterStations "pm25"
      [(FeedResp.ok [("pm25", 12)], "urlA", 101),
       (FeedResp.ok [("o3", 3)], "urlB", 102)] =
      .ok (["urlA"], [101], [102]) := by
  have h := (c7_eligible_iff_has_key_when_probes_ok "pm25"
      [(FeedResp.ok [("pm25", 12)], "urlA", 101),
       (FeedResp.ok [("o3", 3)], "urlB", 102)]
      (by
        intro x hx
        rcases List.mem_cons.mp hx with rfl | hx
        · exact ⟨_, rfl⟩
        rcases List.mem_cons.mp hx with rfl | hx
        · exact ⟨_, rfl⟩
        · exact absurd hx (List.not_mem_nil x))).1
  rw [h]
  decide

/-- Claim C8, counterexample: with a fetcher that fails only on the second
of three URLs, the batch returns no result sequence at all: the one
failure propagates and the outcomes of the other URLs are lost, instead
of a length-3 sequence with a captured per-URL failure. -/
theorem c8_counterexample :
    get_responses_batch
      (fun u => if u = "b" then .error (.transport "boom") else .ok u)
      ["a", "b", "c"] = .error (.transport "boom") := by
  decide

/-- Claim C8 as amended: whenever the batch fetch returns a result list at
all (that is, every fetch succeeded), that list has exactly the length of
the URL list and its i-th element is the response of the i-th URL; a
single fetch failure instead propagates and aborts the whole batch. -/
theorem c8_batch_preserves_length_and_order {α : Type}
    (fetch : String → Except Err α) :
    ∀ (urls : List String) (rs : List α),
      get_responses_batch fetch urls = .ok rs →
      rs.length = urls.length ∧
      ∀ (i : ℕ) (hi : i < urls.length) (hi2 : i < rs.length),
        fetch (urls.get ⟨i, hi⟩) = .ok (rs.get ⟨i, hi2⟩) := by
  intro urls
  induction urls with
  | nil =>
    intro rs h
    unfold get_responses_batch at h
    injection h with h2
    subst h2
    exact ⟨rfl, fun i hi _ => absurd hi (Nat.not_lt_zero i)⟩
  | cons u rest ih =>
    intro rs h
    unfold get_responses_batch at h
    split at h
    · cases h
    next r hf =>
      split at h
      · cases h
      next rs0 hb =>
        injection h with h2
        subst h2
        obtain ⟨hlen, hidx⟩ := ih rs0 hb
        refine ⟨by simp [hlen], ?_⟩
        intro i hi hi2
        cases i with
        | zero => exact hf
        | succ i =>
          exact hidx i (Nat.lt_of_succ_lt_succ hi) (Nat.lt_of_succ_lt_succ hi2)

/-- Witness for C8 amended at an all-success fetch over two URLs. -/
theorem c8_witness :
    (["a", "b"] : List String).length = (["a", "b"] : List String).length ∧
    ∀ (i : ℕ) (hi : i < (["a", "b"] : List String).length)
      (hi2 : i < (["a", "b"] : List String).length),
      (fun u => (Except.ok u : Except Err String))
          ((["a", "b"] : List String).get ⟨i, hi⟩) =
        .ok ((["a", "b"] : List String).get ⟨i, hi2⟩) :=
  c8_batch_preserves_length_and_order (fun u => .ok u) ["a", "b"] ["a", "b"]
    (by decide)
